import Mathlib

/-!
Shallow embedding of the `vin-summary-generator` repository (Python) in Lean 4.

Conventions of the embedding:
* Python strings are modelled as lists of Unicode code points (`PyStr := List Nat`);
  `str.strip`, `str.upper`, `str.lower`, `str.title` are modelled by the ASCII case
  mapping, which is exact on the ASCII data this program handles.
* Python `int` is `Int`, `Decimal` and `float` are modelled exactly as `Rat`
  (all numeric literals appearing in the source - 0.8, 1.2, 95, 105 ... - are
  decimal and compared against integers, so the rational model is the intended
  real-number semantics of the source).
* A Python function that may raise models its result as `Option`; `None`/a raised
  exception is `none`.
* `datetime.now().year` is modelled as an explicit `current_year : Int` parameter
  threaded to the functions that read the wall clock.
-/

/-- Python `str` as a list of code points. -/
abbrev PyStr := List Nat

/-- Code points of a Lean string literal, used to write concrete Python strings. -/
def strCodes (s : String) : PyStr := s.toList.map Char.toNat

/-- Python `str.strip` / Lean whitespace test on a code point (ASCII whitespace:
space, tab, LF, VT, FF, CR). -/
def pyIsSpace (c : Nat) : Bool :=
  c == 32 || c == 9 || c == 10 || c == 11 || c == 12 || c == 13

/-- ASCII upper-casing of one code point (Python `str.upper` on ASCII data). -/
def pyUpperChar (c : Nat) : Nat :=
  if 97 ≤ c ∧ c ≤ 122 then c - 32 else c

/-- ASCII lower-casing of one code point. -/
def pyLowerChar (c : Nat) : Nat :=
  if 65 ≤ c ∧ c ≤ 90 then c + 32 else c

/-- ASCII alphabetic test (Python `str.isalpha` restricted to ASCII, which is what
`str.title` keys on for this data). -/
def pyIsAlpha (c : Nat) : Bool :=
  (65 ≤ c ∧ c ≤ 90) || (97 ≤ c ∧ c ≤ 122)

/-- Python `str.upper`. -/
def pyUpper (s : PyStr) : PyStr := s.map pyUpperChar

/-- Python `str.strip` (drop leading whitespace, then trailing whitespace). -/
def pyStrip (s : PyStr) : PyStr :=
  List.rdropWhile pyIsSpace (List.dropWhile pyIsSpace s)

/-- Python `str.title` helper: the flag says whether the previous character was
alphabetic (in which case the current one is lower-cased). -/
def pyTitleAux : Bool → PyStr → PyStr
  | _, [] => []
  | prev, c :: cs =>
    (if prev then pyLowerChar c else pyUpperChar c) :: pyTitleAux (pyIsAlpha c) cs

/-- Python `str.title`. -/
def pyTitle (s : PyStr) : PyStr := pyTitleAux false s

/-- Decimal digit code points of a natural number, most significant first. -/
def natCodes (n : Nat) : PyStr := (Nat.toDigits 10 n).map Char.toNat

/-- Python `str(int)`. -/
def intCodes (i : Int) : PyStr :=
  if i < 0 then strCodes "-" ++ natCodes i.natAbs else natCodes i.toNat

/-- `vehicle.py`, `VehicleData` (pydantic model): the validated vehicle record.
Field names follow the source. -/
structure VehicleData where
  vin : PyStr
  year : Int
  make : PyStr
  model : PyStr
  current_price : Rat
  price_to_market_percent : Rat
  days_on_lot : Int
  mileage : Int
  total_vdps : Int
  sales_opportunities : Int
deriving DecidableEq, Repr

/-- `vehicle.py` lines 27-32, `validate_vin`: requires a non-empty, 17-character
string; normalizes to uppercase.  `none` models the raised `ValueError`. -/
def validate_vin (v : PyStr) : Option PyStr :=
  if v = [] ∨ v.length ≠ 17 then none else some (pyUpper v)

/-- `vehicle.py` lines 34-39, `validate_year`: range [1980, 2030]. -/
def validate_year (v : Int) : Option Int :=
  if v < 1980 ∨ v > 2030 then none else some v

/-- `vehicle.py` lines 41-46, `validate_price`: non-negative. -/
def validate_price (v : Rat) : Option Rat :=
  if v < 0 then none else some v

/-- `vehicle.py` lines 48-53, `validate_days_on_lot`: non-negative. -/
def validate_days_on_lot (v : Int) : Option Int :=
  if v < 0 then none else some v

/-- `vehicle.py` lines 55-60, `validate_mileage`: non-negative. -/
def validate_mileage (v : Int) : Option Int :=
  if v < 0 then none else some v

/-- Construction of a `VehicleData` through the pydantic field validators (the
fields without a validator - `make`, `model`, `price_to_market_percent`,
`total_vdps`, `sales_opportunities` - are taken as given, as in the source). -/
def mkVehicleData (vin : PyStr) (year : Int) (make mdl : PyStr)
    (current_price price_to_market_percent : Rat)
    (days_on_lot mileage total_vdps sales_opportunities : Int) :
    Option VehicleData :=
  match validate_vin vin, validate_year year, validate_price current_price,
      validate_days_on_lot days_on_lot, validate_mileage mileage with
  | some vin1, some year1, some price1, some dol1, some mileage1 =>
    some { vin := vin1, year := year1, make := make, model := mdl,
           current_price := price1,
           price_to_market_percent := price_to_market_percent,
           days_on_lot := dol1, mileage := mileage1,
           total_vdps := total_vdps,
           sales_opportunities := sales_opportunities }
  | _, _, _, _, _ => none

/-- `vehicle.py` lines 109-119, `RiskFactors`. -/
structure RiskFactors where
  days_on_lot_impact : Int
  price_to_market_impact : Int
  vdp_views_impact : Int
  mileage_impact : Int
  sales_opportunities_impact : Int
  baseline_score : Int
  total_adjustments : Int
  final_score : Int
deriving DecidableEq, Repr

/-- `vehicle.py` lines 63-72, `RiskAssessment` (summary/reasoning as Python strings). -/
structure RiskAssessment where
  summary : PyStr
  risk_score : Int
  reasoning : PyStr
deriving DecidableEq, Repr

/-! ## `risk_engine.py`, `RiskEngine` -/

def BASELINE_SCORE : Int := 5
def MIN_SCORE : Int := 1
def MAX_SCORE : Int := 10
def AVERAGE_MILES_PER_YEAR : Int := 12000

/-- `risk_engine.py` lines 39-46, `_calculate_days_on_lot_impact`. -/
def calculate_days_on_lot_impact (days_on_lot : Int) : Int :=
  if days_on_lot < 15 then -2
  else if days_on_lot ≤ 45 then 0
  else 2

/-- `risk_engine.py` lines 48-55, `_calculate_price_to_market_impact`. -/
def calculate_price_to_market_impact (price_to_market_percent : Rat) : Int :=
  if price_to_market_percent ≤ 95 then -2
  else if 96 ≤ price_to_market_percent ∧ price_to_market_percent ≤ 105 then 0
  else 2

/-- `risk_engine.py` lines 57-64, `_calculate_vdp_views_impact`. -/
def calculate_vdp_views_impact (vdp_views : Int) : Int :=
  if vdp_views > 200 then -1
  else if 50 ≤ vdp_views ∧ vdp_views ≤ 200 then 0
  else 1

/-- `risk_engine.py` lines 66-83, `_calculate_mileage_impact`; `current_year`
models `datetime.now().year`. -/
def calculate_mileage_impact (current_year : Int) (vehicle : VehicleData) : Int :=
  let vehicle_age := current_year - vehicle.year
  if vehicle.mileage = 0 then -1
  else
    let expected_mileage := AVERAGE_MILES_PER_YEAR * vehicle_age
    if (vehicle.mileage : Rat) < (expected_mileage : Rat) * (8 / 10 : Rat) then -1
    else if (vehicle.mileage : Rat) ≤ (expected_mileage : Rat) * (12 / 10 : Rat) then 0
    else 1

/-- `risk_engine.py` lines 85-92, `_calculate_sales_opportunities_impact`. -/
def calculate_sales_opportunities_impact (sales_opportunities : Int) : Int :=
  if sales_opportunities > 10 then -1
  else if sales_opportunities ≤ 2 then 1
  else 0

/-- `risk_engine.py` lines 94-110, `_handle_missing_data_adjustments`. -/
def handle_missing_data_adjustments (vehicle : VehicleData) : Int :=
  let adjustment : Int := 0
  let adjustment := if vehicle.current_price = 0 then adjustment + 1 else adjustment
  let adjustment :=
    if vehicle.price_to_market_percent = 0 then
      if vehicle.days_on_lot > 100 then adjustment + 1
      else if vehicle.days_on_lot < 10 then adjustment - 1
      else adjustment
    else adjustment
  adjustment

/-- `risk_engine.py` lines 112-150, `calculate_risk_factors`. -/
def calculate_risk_factors (current_year : Int) (vehicle : VehicleData) : RiskFactors :=
  let days_on_lot_impact := calculate_days_on_lot_impact vehicle.days_on_lot
  let price_to_market_impact :=
    calculate_price_to_market_impact vehicle.price_to_market_percent
  let vdp_views_impact := calculate_vdp_views_impact vehicle.total_vdps
  let mileage_impact := calculate_mileage_impact current_year vehicle
  let sales_opportunities_impact :=
    calculate_sales_opportunities_impact vehicle.sales_opportunities
  let missing_data_adjustment := handle_missing_data_adjustments vehicle
  let total_adjustments :=
    days_on_lot_impact + price_to_market_impact + vdp_views_impact
      + mileage_impact + sales_opportunities_impact + missing_data_adjustment
  let raw_score := BASELINE_SCORE + total_adjustments
  let final_score := max MIN_SCORE (min MAX_SCORE raw_score)
  { days_on_lot_impact := days_on_lot_impact,
    price_to_market_impact := price_to_market_impact,
    vdp_views_impact := vdp_views_impact,
    mileage_impact := mileage_impact,
    sales_opportunities_impact := sales_opportunities_impact,
    baseline_score := BASELINE_SCORE,
    total_adjustments := total_adjustments,
    final_score := final_score }

/-! ### Text generation (`risk_engine.py` lines 152-294)

Number formatting helpers model the Python format specs used there:
`str(int)`, `(n:+d)` sign-prefixed integers, and `(n:,)` thousands grouping. -/

/-- Python format spec `+d`: always-signed integer. -/
def fmtSigned (i : Int) : PyStr :=
  if 0 ≤ i then strCodes "+" ++ intCodes i else intCodes i

/-- Thousands grouping on a reversed (least-significant-first) digit list:
a comma (code 44) is inserted before every third digit. -/
def commaGroupRev : PyStr → Nat → PyStr
  | [], _ => []
  | c :: cs, k =>
    if k ≠ 0 ∧ k % 3 = 0 then 44 :: c :: commaGroupRev cs (k + 1)
    else c :: commaGroupRev cs (k + 1)

/-- Python format spec `,`: decimal integer with thousands separators. -/
def fmtComma (i : Int) : PyStr :=
  if i < 0 then strCodes "-" ++ (commaGroupRev (natCodes i.natAbs).reverse 0).reverse
  else (commaGroupRev (natCodes i.toNat).reverse 0).reverse

/-- Rendering of the `price_to_market_percent` float in the reasoning text.
Integral values render as Python does (`95.0`); for non-integral values only
functionality (a fixed total rendering), not the exact Python float repr,
is modelled — no claim depends on that spelling. -/
def ratCodes (q : Rat) : PyStr :=
  if q.den = 1 then intCodes q.num ++ strCodes ".0"
  else intCodes q.num ++ strCodes "/" ++ natCodes q.den

/-- Python `sep.join(parts)`. -/
def joinCodes (sep : PyStr) : List PyStr → PyStr
  | [] => []
  | [x] => x
  | x :: y :: xs => x ++ sep ++ joinCodes sep (y :: xs)

/-- `risk_engine.py` lines 158-168: the `price_desc` chosen by `_generate_summary`
(factored out of the summary builder, unchanged). -/
def summary_price_desc (vehicle : VehicleData) : PyStr :=
  if vehicle.current_price > 0 then
    if vehicle.price_to_market_percent > 105 then strCodes "priced above market value"
    else if vehicle.price_to_market_percent < 95 then strCodes "priced below market value"
    else strCodes "competitively priced"
  else strCodes "with pricing to be determined"

/-- `risk_engine.py` lines 152-200, `_generate_summary`. -/
def generate_summary (vehicle : VehicleData) (risk_factors : RiskFactors) : PyStr :=
  let year := intCodes vehicle.year
  let make := pyTitle vehicle.make
  let mdl := pyTitle vehicle.model
  let price_desc := summary_price_desc vehicle
  let engagement_desc :=
    if vehicle.total_vdps > 200 then strCodes "strong online engagement"
    else if vehicle.total_vdps ≥ 50 then strCodes "moderate online interest"
    else strCodes "limited online visibility"
  let lot_desc :=
    if vehicle.days_on_lot < 15 then strCodes "recently listed"
    else if vehicle.days_on_lot ≤ 45 then strCodes "with normal inventory time"
    else strCodes "with extended time on lot"
  let risk_level :=
    if risk_factors.final_score ≤ 3 then strCodes "low risk investment"
    else if risk_factors.final_score ≤ 6 then strCodes "moderate market position"
    else strCodes "requiring attention"
  strCodes "This " ++ year ++ strCodes " " ++ make ++ strCodes " " ++ mdl
    ++ strCodes " is " ++ price_desc ++ strCodes " and shows " ++ engagement_desc
    ++ strCodes ", " ++ lot_desc ++ strCodes ", indicating a " ++ risk_level
    ++ strCodes "."

/-- `risk_engine.py` lines 202-294, `_generate_reasoning`; `current_year` models
the second `datetime.now().year` read (line 258). -/
def generate_reasoning (current_year : Int) (vehicle : VehicleData)
    (risk_factors : RiskFactors) : PyStr :=
  let days_part :=
    if vehicle.days_on_lot < 15 then
      strCodes "Days on lot (" ++ intCodes vehicle.days_on_lot
        ++ strCodes ") is low (" ++ fmtSigned risk_factors.days_on_lot_impact
        ++ strCodes ")"
    else if vehicle.days_on_lot ≤ 45 then
      strCodes "Days on lot (" ++ intCodes vehicle.days_on_lot
        ++ strCodes ") is normal (0)"
    else
      strCodes "Days on lot (" ++ intCodes vehicle.days_on_lot
        ++ strCodes ") is high (" ++ fmtSigned risk_factors.days_on_lot_impact
        ++ strCodes ")"
  let price_part :=
    if vehicle.price_to_market_percent > 0 then
      if vehicle.price_to_market_percent ≤ 95 then
        strCodes "Price is " ++ ratCodes vehicle.price_to_market_percent
          ++ strCodes "% of market (" ++ fmtSigned risk_factors.price_to_market_impact
          ++ strCodes ")"
      else if vehicle.price_to_market_percent ≤ 105 then
        strCodes "Price is " ++ ratCodes vehicle.price_to_market_percent
          ++ strCodes "% of market (0)"
      else
        strCodes "Price is " ++ ratCodes vehicle.price_to_market_percent
          ++ strCodes "% of market (" ++ fmtSigned risk_factors.price_to_market_impact
          ++ strCodes ")"
    else strCodes "Price to market data unavailable"
  let views_part :=
    if vehicle.total_vdps > 200 then
      strCodes "VDP views (" ++ fmtComma vehicle.total_vdps
        ++ strCodes ") are high (" ++ fmtSigned risk_factors.vdp_views_impact
        ++ strCodes ")"
    else if vehicle.total_vdps ≥ 50 then
      strCodes "VDP views (" ++ fmtComma vehicle.total_vdps
        ++ strCodes ") are moderate (0)"
    else
      strCodes "VDP views (" ++ fmtComma vehicle.total_vdps
        ++ strCodes ") are low (" ++ fmtSigned risk_factors.vdp_views_impact
        ++ strCodes ")"
  let mileage_part :=
    if vehicle.mileage = 0 then
      strCodes "New vehicle with 0 miles (" ++ fmtSigned risk_factors.mileage_impact
        ++ strCodes ")"
    else
      let expected_mileage := AVERAGE_MILES_PER_YEAR * (current_year - vehicle.year)
      strCodes "Mileage (" ++ fmtComma vehicle.mileage ++ strCodes ") vs expected ("
        ++ fmtComma expected_mileage ++ strCodes ") for age ("
        ++ fmtSigned risk_factors.mileage_impact ++ strCodes ")"
  let opportunities_part :=
    if vehicle.sales_opportunities > 10 then
      strCodes "Sales opportunities (" ++ intCodes vehicle.sales_opportunities
        ++ strCodes ") are high (" ++ fmtSigned risk_factors.sales_opportunities_impact
        ++ strCodes ")"
    else if vehicle.sales_opportunities ≤ 2 then
      strCodes "Sales opportunities (" ++ intCodes vehicle.sales_opportunities
        ++ strCodes ") are low (" ++ fmtSigned risk_factors.sales_opportunities_impact
        ++ strCodes ")"
    else
      strCodes "Sales opportunities (" ++ intCodes vehicle.sales_opportunities
        ++ strCodes ") are moderate (0)"
  let final_part :=
    strCodes "Overall score = " ++ intCodes risk_factors.baseline_score
      ++ strCodes " baseline " ++ fmtSigned risk_factors.total_adjustments
      ++ strCodes " adjustments = " ++ intCodes risk_factors.final_score
  joinCodes (strCodes ". ")
      [days_part, price_part, views_part, mileage_part, opportunities_part]
    ++ strCodes ". " ++ final_part ++ strCodes "."

/-- `risk_engine.py` lines 296-320, `assess_risk`.  `llm_output` models the external
generator's response: `some` a successful delegate reply (returned verbatim),
`none` an absent/failed service; with `use_llm = false` the delegate is never
consulted and the algorithmic strategy runs. -/
def assess_risk (use_llm : Bool) (llm_output : Option RiskAssessment)
    (current_year : Int) (vehicle : VehicleData) : RiskAssessment :=
  let risk_factors := calculate_risk_factors current_year vehicle
  match use_llm, llm_output with
  | true, some out => out
  | _, _ =>
    { summary := generate_summary vehicle risk_factors,
      risk_score := risk_factors.final_score,
      reasoning := generate_reasoning current_year vehicle risk_factors }

/-! ## `data_loader.py`, `DataLoader` -/

/-- Value of a nonempty all-digit code-point list (decimal), `none` on any
non-digit. -/
def digitsValAux : PyStr → Nat → Option Nat
  | [], acc => some acc
  | c :: cs, acc =>
    if 48 ≤ c ∧ c ≤ 57 then digitsValAux cs (acc * 10 + (c - 48)) else none

/-- Python `int(str)`: surrounding whitespace, optional sign, decimal digits
(underscored digit groups are not modelled). `none` models `ValueError`. -/
def pyIntParse (s : PyStr) : Option Int :=
  match pyStrip s with
  | 43 :: ds => if ds = [] then none else (digitsValAux ds 0).map Int.ofNat
  | 45 :: ds => if ds = [] then none else (digitsValAux ds 0).map (fun n => -(n : Int))
  | ds => if ds = [] then none else (digitsValAux ds 0).map Int.ofNat

/-- Digits with at most one decimal point: returns the digit value and the number
of fraction digits.  Arguments: remaining input, dot seen, accumulator, fraction
digits so far, digit seen. -/
def decValAux : PyStr → Bool → Nat → Nat → Bool → Option (Nat × Nat)
  | [], _, acc, frac, seenDigit => if seenDigit then some (acc, frac) else none
  | c :: cs, seenDot, acc, frac, seenDigit =>
    if c = 46 then
      if seenDot then none else decValAux cs true acc frac seenDigit
    else if 48 ≤ c ∧ c ≤ 57 then
      decValAux cs seenDot (acc * 10 + (c - 48)) (if seenDot then frac + 1 else frac) true
    else none

/-- Python `float(str)` / `Decimal(str)` on plain decimal notation (exponent
notation is not modelled; the loader maps any unparsable form to zero anyway). -/
def pyRatParse (s : PyStr) : Option Rat :=
  match pyStrip s with
  | 43 :: ds => (decValAux ds false 0 0 false).map
      (fun p => ((p.1 : Int) : Rat) / ((10 : Rat) ^ p.2))
  | 45 :: ds => (decValAux ds false 0 0 false).map
      (fun p => ((-(p.1 : Int) : Int) : Rat) / ((10 : Rat) ^ p.2))
  | ds => (decValAux ds false 0 0 false).map
      (fun p => ((p.1 : Int) : Rat) / ((10 : Rat) ^ p.2))

/-- `data_loader.py` lines 21-36, `_clean_price` (code 36 is `$`, 44 is `,`). -/
def clean_price (price_str : PyStr) : Rat :=
  if price_str = [] ∨ pyStrip price_str ∈ [strCodes "$0", strCodes "0", strCodes "-", []] then 0
  else
    let cleaned := (pyStrip price_str).filter (fun c => !(c == 36 || c == 44 || pyIsSpace c))
    if cleaned = [] ∨ cleaned = strCodes "0" then 0
    else (pyRatParse cleaned).getD 0

/-- `data_loader.py` lines 38-53, `_clean_percentage` (code 37 is `%`). -/
def clean_percentage (percent_str : PyStr) : Rat :=
  if percent_str = [] ∨ pyStrip percent_str ∈ [strCodes "-", [], strCodes "0%"] then 0
  else
    let cleaned := (pyStrip percent_str).filter (fun c => !(c == 37))
    if cleaned = [] ∨ cleaned = strCodes "0" then 0
    else (pyRatParse cleaned).getD 0

/-- `data_loader.py` lines 55-70, `_clean_integer`. -/
def clean_integer (int_str : PyStr) : Int :=
  if int_str = [] ∨ pyStrip int_str ∈ [strCodes "-", [], strCodes "0"] then 0
  else
    let cleaned := (pyStrip int_str).filter (fun c => !(c == 44 || pyIsSpace c))
    if cleaned = [] then 0
    else (pyIntParse cleaned).getD 0

/-- One CSV row: the raw string cells under the column names the loader reads
(`VIN`, `Year`, `Make`, `Model`, `Current price`, `Current price to market %`,
`DOL`, `Mileage`, `Total VDPs (lifetime)`, `Total sales opportunities (lifetime)`). -/
structure Row where
  VIN : PyStr
  Year : PyStr
  Make : PyStr
  Model : PyStr
  CurrentPrice : PyStr
  PriceToMarketPercent : PyStr
  DOL : PyStr
  Mileage : PyStr
  TotalVDPs : PyStr
  SalesOpportunities : PyStr
deriving DecidableEq, Repr

/-- `data_loader.py` lines 72-116, `_parse_row`: `none` models both the early
`return None` paths and the `except` clause catching a validator error. -/
def parse_row (row : Row) : Option VehicleData :=
  let vin := pyStrip row.VIN
  if vin = [] then none
  else
    let year := clean_integer row.Year
    if year = 0 then none
    else
      let make := pyUpper (pyStrip row.Make)
      let mdl := pyUpper (pyStrip row.Model)
      if make = [] ∨ mdl = [] then none
      else
        mkVehicleData vin year make mdl
          (clean_price row.CurrentPrice)
          (clean_percentage row.PriceToMarketPercent)
          (clean_integer row.DOL)
          (clean_integer row.Mileage)
          (clean_integer row.TotalVDPs)
          (clean_integer row.SalesOpportunities)

/-- The in-memory store `self.vehicles`: a Python dict modelled as an association
list in insertion order. -/
abbrev Store := List (PyStr × VehicleData)

/-- Python dict assignment `d[k] = v`: overwrite in place or append. -/
def store_insert (store : Store) (k : PyStr) (v : VehicleData) : Store :=
  if store.any (fun p => p.1 == k) then
    store.map (fun p => if p.1 = k then (k, v) else p)
  else store ++ [(k, v)]

/-- One iteration of the `_load_data` loop (`data_loader.py` lines 126-131): a
parsed row is stored under `vehicle.vin`, an unparsable row is skipped. -/
def load_step (store : Store) (row : Row) : Store :=
  match parse_row row with
  | some vehicle => store_insert store vehicle.vin vehicle
  | none => store

/-- `data_loader.py` lines 118-133, `_load_data`: each row parsed independently,
unparsable rows skipped, parsed records stored under `vehicle.vin`. -/
def load_rows (rows : List Row) : Store :=
  rows.foldl load_step []

/-- Python `self.vehicles[k]` access after a membership test. -/
def lookupStore (store : Store) (k : PyStr) : Option VehicleData :=
  (store.find? (fun p => p.1 == k)).map Prod.snd

/-- `data_loader.py` lines 135-142, `get_vehicle_by_vin`: `none` models the raised
`VehicleNotFoundError`. -/
def get_vehicle_by_vin (store : Store) (vin : PyStr) : Option VehicleData :=
  lookupStore store (pyUpper (pyStrip vin))

/-! ## `vin_analyzer.py`, `VinAnalyzer` -/

/-- `vin_analyzer.py` lines 33-52, `analyze_vin`: lookup (propagating not-found as
`none`) then risk assessment. -/
def analyze_vin (store : Store) (use_llm : Bool) (llm_output : Option RiskAssessment)
    (current_year : Int) (vin : PyStr) : Option RiskAssessment :=
  (get_vehicle_by_vin store vin).map (assess_risk use_llm llm_output current_year)

/-- Boolean lexicographic order on code-point strings (Python's `<=` on `str`,
used by `sorted`). -/
def lexLe : PyStr → PyStr → Bool
  | [], _ => true
  | _ :: _, [] => false
  | a :: as, b :: bs => if a < b then true else if a = b then lexLe as bs else false

/-- Python `min(xs)` over a list (`none` for the empty list, which would raise). -/
def pyMin {α : Type} [LinearOrder α] : List α → Option α
  | [] => none
  | x :: xs => some (xs.foldl min x)

/-- Python `max(xs)` over a list. -/
def pyMax {α : Type} [LinearOrder α] : List α → Option α
  | [] => none
  | x :: xs => some (xs.foldl max x)

/-- The `price_range` value in `get_database_stats`. -/
structure PriceRange where
  min : Option Rat
  max : Option Rat
  avg : Option Rat
deriving DecidableEq, Repr

/-- The dict returned by `get_database_stats`. -/
structure DatabaseStats where
  total_vehicles : Nat
  makes : List PyStr
  year_range : Option (Option Int × Option Int)
  price_range : Option PriceRange
deriving DecidableEq, Repr

/-- `vin_analyzer.py` lines 69-97, `get_database_stats`, over `get_all_vehicles()`.
Python's `sorted(set(...))` (the sorted list of the distinct manufacturers) is
modelled as merge-sorting the deduplicated list — the same sorted distinct list. -/
def get_database_stats (vehicles : List VehicleData) : DatabaseStats :=
  if vehicles = [] then
    { total_vehicles := 0, makes := [], year_range := none, price_range := none }
  else
    let makes := ((vehicles.map VehicleData.make).dedup).mergeSort lexLe
    let years := vehicles.map VehicleData.year
    let prices :=
      (vehicles.filter (fun v => v.current_price > 0)).map VehicleData.current_price
    { total_vehicles := vehicles.length,
      makes := makes,
      year_range := some (pyMin years, pyMax years),
      price_range := some
        { min := pyMin prices,
          max := pyMax prices,
          avg := if prices = [] then none
                 else some (prices.sum / (prices.length : Rat)) } }

/-! ## Concrete scenario data used by the claims -/

/-- The scenario record of C2 (spec §8): 2018 Honda Accord, price 25000,
price-to-market 95, 25 days on lot, 50000 miles, 150 views, 5 opportunities. -/
def hondaAccordScenario : VehicleData :=
  { vin := strCodes "1HGCM82633A123456", year := 2018,
    make := strCodes "HONDA", model := strCodes "ACCORD",
    current_price := 25000, price_to_market_percent := 95,
    days_on_lot := 25, mileage := 50000, total_vdps := 150,
    sales_opportunities := 5 }

/-- The record invariants that the pydantic validators establish. -/
def ValidRecord (v : VehicleData) : Prop :=
  v.vin.length = 17 ∧ 1980 ≤ v.year ∧ v.year ≤ 2030
    ∧ 0 ≤ v.current_price ∧ 0 ≤ v.days_on_lot ∧ 0 ≤ v.mileage

/-- A CSV row whose `Total VDPs (lifetime)` cell is `"-5"`: every validated field
is in range, the price cells are empty (resolving to the zero sentinel), and the
views counter is negative. -/
def negVdpsRow : Row :=
  { VIN := strCodes "1HGCM82633A123456", Year := strCodes "2018",
    Make := strCodes "HONDA", Model := strCodes "ACCORD",
    CurrentPrice := strCodes "", PriceToMarketPercent := strCodes "",
    DOL := strCodes "25", Mileage := strCodes "50000",
    TotalVDPs := strCodes "-5", SalesOpportunities := strCodes "5" }

/-- A CSV row with an empty `VIN` cell, which `_parse_row` rejects. -/
def emptyVinRow : Row :=
  { VIN := strCodes "", Year := strCodes "2018",
    Make := strCodes "HONDA", Model := strCodes "ACCORD",
    CurrentPrice := strCodes "", PriceToMarketPercent := strCodes "",
    DOL := strCodes "0", Mileage := strCodes "0",
    TotalVDPs := strCodes "0", SalesOpportunities := strCodes "0" }

/-- The store entry that loading `negVdpsRow` produces. -/
def negVdpsPair : PyStr × VehicleData :=
  (strCodes "1HGCM82633A123456",
   { vin := strCodes "1HGCM82633A123456", year := 2018,
     make := strCodes "HONDA", model := strCodes "ACCORD",
     current_price := 0, price_to_market_percent := 0,
     days_on_lot := 25, mileage := 50000, total_vdps := -5,
     sales_opportunities := 5 })

/-! ## String-normalization lemmas (ASCII case mapping vs. whitespace stripping) -/

theorem pyIsSpace_pyUpperChar (c : Nat) : pyIsSpace (pyUpperChar c) = pyIsSpace c := by
  rw [Bool.eq_iff_iff]
  unfold pyIsSpace pyUpperChar
  split
  · simp
    omega
  · simp

theorem pyUpperChar_idem (c : Nat) : pyUpperChar (pyUpperChar c) = pyUpperChar c := by
  unfold pyUpperChar
  by_cases h : 97 ≤ c ∧ c ≤ 122
  · rw [if_pos h, if_neg (by omega)]
  · rw [if_neg h, if_neg h]

theorem pyUpper_idem (s : PyStr) : pyUpper (pyUpper s) = pyUpper s := by
  unfold pyUpper
  rw [List.map_map]
  exact List.map_congr_left fun c _ => pyUpperChar_idem c

theorem pyIsSpace_comp : (pyIsSpace ∘ pyUpperChar) = pyIsSpace :=
  funext pyIsSpace_pyUpperChar

theorem dropWhile_pyUpper (s : PyStr) :
    List.dropWhile pyIsSpace (pyUpper s) = pyUpper (List.dropWhile pyIsSpace s) := by
  unfold pyUpper
  rw [List.dropWhile_map, pyIsSpace_comp]

theorem rdropWhile_pyUpper (s : PyStr) :
    List.rdropWhile pyIsSpace (pyUpper s) = pyUpper (List.rdropWhile pyIsSpace s) := by
  unfold List.rdropWhile pyUpper
  rw [← List.map_reverse, List.dropWhile_map, pyIsSpace_comp, List.map_reverse]

theorem pyStrip_pyUpper (s : PyStr) : pyStrip (pyUpper s) = pyUpper (pyStrip s) := by
  unfold pyStrip
  rw [dropWhile_pyUpper, rdropWhile_pyUpper]

theorem dropWhile_rdropWhile_dropWhile (s : PyStr) :
    List.dropWhile pyIsSpace
        (List.rdropWhile pyIsSpace (List.dropWhile pyIsSpace s)) =
      List.rdropWhile pyIsSpace (List.dropWhile pyIsSpace s) := by
  rw [List.dropWhile_eq_self_iff]
  intro hl
  have hpre := List.rdropWhile_prefix pyIsSpace (List.dropWhile pyIsSpace s)
  have hlen : 0 < (List.dropWhile pyIsSpace s).length :=
    lt_of_lt_of_le hl hpre.length_le
  have hget := hpre.getElem (n := 0) hl
  have hne : List.dropWhile pyIsSpace s ≠ [] := by
    intro h
    rw [h] at hlen
    simp at hlen
  have hhead := List.head_dropWhile_not pyIsSpace s hne
  simp only [List.get_eq_getElem, hget]
  rw [List.head_eq_getElem] at hhead
  simp [hhead]

theorem pyStrip_idem (s : PyStr) : pyStrip (pyStrip s) = pyStrip s := by
  unfold pyStrip
  rw [dropWhile_rdropWhile_dropWhile, List.rdropWhile_idempotent]

/-! ## Claims -/

/-- C1: for every vehicle record and evaluation year, `calculate_risk_factors`
reports `total_adjustments` as the plain, unsaturated sum of the five factor
impacts plus the missing-data adjustment, and the final score is exactly
`clamp(5 + that sum, 1, 10)` — one single clamp, so the final score always lies
in [1, 10], even when the raw sum drives `5 + sum` below 1 or above 10. -/
theorem C1_final_score_single_clamp (current_year : Int) (vehicle : VehicleData) :
    (calculate_risk_factors current_year vehicle).total_adjustments =
        calculate_days_on_lot_impact vehicle.days_on_lot
          + calculate_price_to_market_impact vehicle.price_to_market_percent
          + calculate_vdp_views_impact vehicle.total_vdps
          + calculate_mileage_impact current_year vehicle
          + calculate_sales_opportunities_impact vehicle.sales_opportunities
          + handle_missing_data_adjustments vehicle
      ∧ (calculate_risk_factors current_year vehicle).final_score =
          max 1 (min 10
            (5 + (calculate_risk_factors current_year vehicle).total_adjustments))
      ∧ 1 ≤ (calculate_risk_factors current_year vehicle).final_score
      ∧ (calculate_risk_factors current_year vehicle).final_score ≤ 10 := by
  refine ⟨rfl, rfl, ?_, ?_⟩ <;>
    simp only [calculate_risk_factors, BASELINE_SCORE, MIN_SCORE, MAX_SCORE] <;>
    omega

/-- C2 counterexample: on the scenario record with `currentYear = 2025` the code
computes mileage impact `-1` (50000 < 0.8 × 84000 = 67200) and final score `2`,
not the claimed mileage impact `0` and final score `3`. -/
theorem C2_counterexample :
    (calculate_risk_factors 2025 hondaAccordScenario).mileage_impact ≠ 0
      ∧ (calculate_risk_factors 2025 hondaAccordScenario).final_score ≠ 3 := by
  norm_num [calculate_risk_factors, calculate_days_on_lot_impact,
    calculate_price_to_market_impact, calculate_vdp_views_impact,
    calculate_mileage_impact, calculate_sales_opportunities_impact,
    handle_missing_data_adjustments, hondaAccordScenario,
    BASELINE_SCORE, MIN_SCORE, MAX_SCORE, AVERAGE_MILES_PER_YEAR]

/-- C2 amended: on the scenario record with `currentYear = 2025` the impacts are
days-on-lot 0, price-to-market -2, views 0, mileage -1 (50000 is below
0.8 × expected 84000), opportunities 0, missing-data adjustment 0, and the final
score is 5 - 3 = 2. -/
theorem C2_scenario_amended :
    calculate_risk_factors 2025 hondaAccordScenario =
      { days_on_lot_impact := 0, price_to_market_impact := -2,
        vdp_views_impact := 0, mileage_impact := -1,
        sales_opportunities_impact := 0, baseline_score := 5,
        total_adjustments := -3, final_score := 2 } := by
  norm_num [calculate_risk_factors, calculate_days_on_lot_impact,
    calculate_price_to_market_impact, calculate_vdp_views_impact,
    calculate_mileage_impact, calculate_sales_opportunities_impact,
    handle_missing_data_adjustments, hondaAccordScenario,
    BASELINE_SCORE, MIN_SCORE, MAX_SCORE, AVERAGE_MILES_PER_YEAR]

/-- C3 counterexample: at `priceToMarketPercent = 95.5` the impact is `+2`
although `95.5 > 105` is false — so "+2 exactly when above 105" fails. -/
theorem C3_counterexample :
    calculate_price_to_market_impact (191 / 2 : Rat) = 2
      ∧ ¬((191 / 2 : Rat) > 105) := by
  constructor
  · norm_num [calculate_price_to_market_impact]
  · norm_num

/-- C3 amended: the price-to-market impact is `-2` exactly when the percentage is
≤ 95, `0` exactly when it lies in [96, 105], and `+2` exactly when it is > 105
or falls in the uncovered gap strictly between 95 and 96; it never takes a value
outside ({-2, 0, +2}). -/
theorem C3_price_to_market_impact_cases (p : Rat) :
    (calculate_price_to_market_impact p = -2 ↔ p ≤ 95)
      ∧ (calculate_price_to_market_impact p = 0 ↔ 96 ≤ p ∧ p ≤ 105)
      ∧ (calculate_price_to_market_impact p = 2 ↔ (105 < p ∨ (95 < p ∧ p < 96)))
      ∧ (calculate_price_to_market_impact p = -2
          ∨ calculate_price_to_market_impact p = 0
          ∨ calculate_price_to_market_impact p = 2) := by
  unfold calculate_price_to_market_impact
  split_ifs with h1 h2
  · refine ⟨by simp [h1], ?_, ?_, by norm_num⟩
    · constructor
      · intro h
        norm_num at h
      · intro h
        linarith [h.1]
    · constructor
      · intro h
        norm_num at h
      · intro h
        rcases h with h | h
        · linarith
        · linarith [h.2]
  · refine ⟨?_, by simp [h2], ?_, by norm_num⟩
    · constructor
      · intro h
        norm_num at h
      · intro h
        exact absurd h h1
    · constructor
      · intro h
        norm_num at h
      · intro h
        rcases h with h | h
        · linarith [h2.2]
        · linarith [h2.1]
  · push_neg at h1 h2
    refine ⟨?_, ?_, ?_, by norm_num⟩
    · constructor
      · intro h
        norm_num at h
      · intro h
        linarith
    · constructor
      · intro h
        norm_num at h
      · intro h
        exact absurd h.2 (not_le.mpr (h2 h.1))
    · constructor
      · intro _
        by_cases h96 : 96 ≤ p
        · exact Or.inl (h2 h96)
        · exact Or.inr ⟨h1, lt_of_not_le h96⟩
      · intro _
        rfl

/-- C6: for every vehicle record, the missing-data adjustment is the sum of the
price-zero rule (+1 when `currentPrice == 0`) and the independent
price-to-market-zero rule (+1 when `daysOnLot > 100`, -1 when `daysOnLot < 10`),
so both rules may fire together and the adjustment always lies in
(-1, 0, +1, +2). -/
theorem C6_missing_data_adjustment_sum (vehicle : VehicleData) :
    handle_missing_data_adjustments vehicle =
        (if vehicle.current_price = 0 then 1 else 0)
          + (if vehicle.price_to_market_percent = 0 then
               if vehicle.days_on_lot > 100 then 1
               else if vehicle.days_on_lot < 10 then -1
               else 0
             else 0)
      ∧ (handle_missing_data_adjustments vehicle = -1
          ∨ handle_missing_data_adjustments vehicle = 0
          ∨ handle_missing_data_adjustments vehicle = 1
          ∨ handle_missing_data_adjustments vehicle = 2) := by
  unfold handle_missing_data_adjustments
  dsimp only
  constructor
  · split_ifs <;> omega
  · split_ifs <;> omega

/-- C7: for every vehicle record and reference year, the mileage impact is `-1`
whenever `mileage == 0` (regardless of model year), and otherwise, with
`expected = 12000 × (currentYear - modelYear)`, it is `-1` below `0.8 × expected`,
`0` up to `1.2 × expected`, and `+1` above. -/
theorem C7_mileage_impact_rule (current_year : Int) (vehicle : VehicleData) :
    calculate_mileage_impact current_year vehicle =
      if vehicle.mileage = 0 then -1
      else if (vehicle.mileage : Rat) <
          ((12000 * (current_year - vehicle.year) : Int) : Rat) * (8 / 10 : Rat) then -1
      else if (vehicle.mileage : Rat) ≤
          ((12000 * (current_year - vehicle.year) : Int) : Rat) * (12 / 10 : Rat) then 0
      else 1 := by
  rfl

/-- C5: `get_vehicle_by_vin` first trims and upper-cases its argument, so looking
up `id` and looking up `trim(uppercase(id))` give the same result for every
store; in particular `" 1hgcm82633a123456 "` and `"1HGCM82633A123456"` resolve to
the same record, and the lookup yields not-found (`none`) exactly when no stored
key equals the normalized identifier. -/
theorem C5_lookup_normalization (store : Store) (id : PyStr) :
    get_vehicle_by_vin store id = get_vehicle_by_vin store (pyStrip (pyUpper id))
      ∧ get_vehicle_by_vin store (strCodes " 1hgcm82633a123456 ")
          = get_vehicle_by_vin store (strCodes "1HGCM82633A123456")
      ∧ (get_vehicle_by_vin store id = none ↔
          ∀ kv ∈ store, kv.1 ≠ pyUpper (pyStrip id)) := by
  refine ⟨?_, ?_, ?_⟩
  · unfold get_vehicle_by_vin
    rw [pyStrip_idem, pyStrip_pyUpper, pyUpper_idem]
  · unfold get_vehicle_by_vin
    rfl
  · unfold get_vehicle_by_vin lookupStore
    rw [Option.map_eq_none', List.find?_eq_none]
    constructor
    · intro h kv hkv
      have := h kv hkv
      simpa using this
    · intro h kv hkv
      simpa using h kv hkv

/-- C9: in algorithmic mode (`use_llm = false`) `analyze_vin` is a deterministic
function of the store and the reference year: two calls on the same store and
the same wall-clock year return identical risk scores and identical reasoning
texts (and identical summaries), whatever the external generator would have
returned in either call. -/
theorem C9_algorithmic_determinism (store : Store) (current_year : Int)
    (vin : PyStr) (llm_output1 llm_output2 : Option RiskAssessment) :
    analyze_vin store false llm_output1 current_year vin
      = analyze_vin store false llm_output2 current_year vin := by
  unfold analyze_vin assess_risk
  cases get_vehicle_by_vin store vin <;> cases llm_output1 <;> cases llm_output2 <;> rfl

/-! ## Loader invariant lemmas -/

theorem validate_vin_length {v v1 : PyStr} (h : validate_vin v = some v1) :
    v1.length = 17 := by
  unfold validate_vin at h
  split at h
  · exact absurd h (by simp)
  · next hcond =>
    push_neg at hcond
    injection h with h
    subst h
    simpa [pyUpper] using hcond.2

theorem validate_year_range {v v1 : Int} (h : validate_year v = some v1) :
    1980 ≤ v1 ∧ v1 ≤ 2030 := by
  unfold validate_year at h
  split at h
  · exact absurd h (by simp)
  · next hcond =>
    push_neg at hcond
    injection h with h
    subst h
    omega

theorem validate_price_nonneg {v v1 : Rat} (h : validate_price v = some v1) :
    0 ≤ v1 := by
  unfold validate_price at h
  split at h
  · exact absurd h (by simp)
  · next hcond =>
    injection h with h
    subst h
    exact le_of_not_lt hcond

theorem validate_days_on_lot_nonneg {v v1 : Int} (h : validate_days_on_lot v = some v1) :
    0 ≤ v1 := by
  unfold validate_days_on_lot at h
  split at h
  · exact absurd h (by simp)
  · next hcond =>
    injection h with h
    subst h
    omega

theorem validate_mileage_nonneg {v v1 : Int} (h : validate_mileage v = some v1) :
    0 ≤ v1 := by
  unfold validate_mileage at h
  split at h
  · exact absurd h (by simp)
  · next hcond =>
    injection h with h
    subst h
    omega

theorem mkVehicleData_valid {vin year make mdl price ptm dol mi vdps opps v}
    (h : mkVehicleData vin year make mdl price ptm dol mi vdps opps = some v) :
    ValidRecord v := by
  unfold mkVehicleData at h
  split at h
  · next hvin hyear hprice hdol hmi =>
    injection h with h
    subst h
    exact ⟨validate_vin_length hvin, (validate_year_range hyear).1,
      (validate_year_range hyear).2, validate_price_nonneg hprice,
      validate_days_on_lot_nonneg hdol, validate_mileage_nonneg hmi⟩
  · exact absurd h (by simp)

theorem parse_row_valid {row : Row} {v : VehicleData} (h : parse_row row = some v) :
    ValidRecord v := by
  unfold parse_row at h
  dsimp only at h
  split_ifs at h
  exact mkVehicleData_valid h

theorem store_insert_mem {store : Store} {k : PyStr} {v : VehicleData}
    {kv : PyStr × VehicleData} (h : kv ∈ store_insert store k v) :
    kv = (k, v) ∨ kv ∈ store := by
  unfold store_insert at h
  split at h
  · obtain ⟨p, hp, hpe⟩ := List.mem_map.mp h
    by_cases hk : p.1 = k
    · rw [if_pos hk] at hpe
      exact Or.inl hpe.symm
    · rw [if_neg hk] at hpe
      exact Or.inr (hpe ▸ hp)
  · rcases List.mem_append.mp h with h | h
    · exact Or.inr h
    · simp at h
      exact Or.inl h

theorem load_rows_valid (rows : List Row) :
    ∀ kv ∈ load_rows rows, ValidRecord kv.2 := by
  unfold load_rows
  suffices H : ∀ (store : Store), (∀ kv ∈ store, ValidRecord kv.2) →
      ∀ kv ∈ rows.foldl load_step store, ValidRecord kv.2 by
    exact H [] (by simp)
  induction rows with
  | nil => intro store hstore kv hkv; exact hstore kv hkv
  | cons row rest ih =>
    intro store hstore kv hkv
    rw [List.foldl_cons] at hkv
    refine ih (load_step store row) ?_ kv hkv
    intro kv2 hkv2
    unfold load_step at hkv2
    split at hkv2
    · next veh hveh =>
      rcases store_insert_mem hkv2 with h | h
      · rw [h]
        exact parse_row_valid hveh
      · exact hstore kv2 h
    · exact hstore kv2 hkv2

theorem load_rows_skip (row : Row) (hrow : parse_row row = none)
    (pre post : List Row) :
    load_rows (pre ++ row :: post) = load_rows (pre ++ post) := by
  unfold load_rows
  rw [List.foldl_append, List.foldl_append, List.foldl_cons]
  congr 1
  unfold load_step
  rw [hrow]

/-! ## Fold-based min/max and lexicographic-order lemmas -/

theorem foldl_min_mem {α : Type} [LinearOrder α] :
    ∀ (xs : List α) (x : α), xs.foldl min x ∈ x :: xs := by
  intro xs
  induction xs with
  | nil => intro x; simp
  | cons b bs ih =>
    intro x
    rw [List.foldl_cons]
    rcases List.mem_cons.mp (ih (min x b)) with h | h
    · rcases min_choice x b with hc | hc
      · rw [h, hc]
        exact List.mem_cons_self _ _
      · rw [h, hc]
        exact List.mem_cons.mpr (Or.inr (List.mem_cons_self _ _))
    · exact List.mem_cons.mpr (Or.inr (List.mem_cons.mpr (Or.inr h)))

theorem foldl_min_le {α : Type} [LinearOrder α] :
    ∀ (xs : List α) (x : α) (y : α), y ∈ x :: xs → xs.foldl min x ≤ y := by
  intro xs
  induction xs with
  | nil =>
    intro x y hy
    simp at hy
    simp [hy]
  | cons b bs ih =>
    intro x y hy
    rw [List.foldl_cons]
    have hhead : bs.foldl min (min x b) ≤ min x b := ih _ _ (List.mem_cons_self _ _)
    rcases List.mem_cons.mp hy with h | h
    · rw [h]
      exact le_trans hhead (min_le_left x b)
    · rcases List.mem_cons.mp h with h | h
      · rw [h]
        exact le_trans hhead (min_le_right x b)
      · exact ih (min x b) y (List.mem_cons.mpr (Or.inr h))

theorem foldl_max_mem {α : Type} [LinearOrder α] :
    ∀ (xs : List α) (x : α), xs.foldl max x ∈ x :: xs := by
  intro xs
  induction xs with
  | nil => intro x; simp
  | cons b bs ih =>
    intro x
    rw [List.foldl_cons]
    rcases List.mem_cons.mp (ih (max x b)) with h | h
    · rcases max_choice x b with hc | hc
      · rw [h, hc]
        exact List.mem_cons_self _ _
      · rw [h, hc]
        exact List.mem_cons.mpr (Or.inr (List.mem_cons_self _ _))
    · exact List.mem_cons.mpr (Or.inr (List.mem_cons.mpr (Or.inr h)))

theorem foldl_le_max {α : Type} [LinearOrder α] :
    ∀ (xs : List α) (x : α) (y : α), y ∈ x :: xs → y ≤ xs.foldl max x := by
  intro xs
  induction xs with
  | nil =>
    intro x y hy
    simp at hy
    simp [hy]
  | cons b bs ih =>
    intro x y hy
    rw [List.foldl_cons]
    have hhead : max x b ≤ bs.foldl max (max x b) := ih _ _ (List.mem_cons_self _ _)
    rcases List.mem_cons.mp hy with h | h
    · rw [h]
      exact le_trans (le_max_left x b) hhead
    · rcases List.mem_cons.mp h with h | h
      · rw [h]
        exact le_trans (le_max_right x b) hhead
      · exact ih (max x b) y (List.mem_cons.mpr (Or.inr h))

theorem pyMin_spec {α : Type} [LinearOrder α] {l : List α} {a : α}
    (h : pyMin l = some a) : a ∈ l ∧ ∀ y ∈ l, a ≤ y := by
  cases l with
  | nil => exact absurd h (by simp [pyMin])
  | cons x xs =>
    unfold pyMin at h
    injection h with h
    rw [← h]
    exact ⟨foldl_min_mem xs x, fun y hy => foldl_min_le xs x y hy⟩

theorem pyMax_spec {α : Type} [LinearOrder α] {l : List α} {a : α}
    (h : pyMax l = some a) : a ∈ l ∧ ∀ y ∈ l, y ≤ a := by
  cases l with
  | nil => exact absurd h (by simp [pyMax])
  | cons x xs =>
    unfold pyMax at h
    injection h with h
    rw [← h]
    exact ⟨foldl_max_mem xs x, fun y hy => foldl_le_max xs x y hy⟩

theorem lexLe_trans : ∀ (a b c : List Nat),
    lexLe a b = true → lexLe b c = true → lexLe a c = true := by
  intro a
  induction a with
  | nil => intro b c _ _; rfl
  | cons x xs ih =>
    intro b c hab hbc
    cases b with
    | nil => exact absurd hab (by simp [lexLe])
    | cons y ys =>
      cases c with
      | nil => exact absurd hbc (by simp [lexLe])
      | cons z zs =>
        simp only [lexLe] at hab hbc ⊢
        by_cases hxy : x < y
        · by_cases hyz : y < z
          · have hxz : x < z := by omega
            simp [hxz]
          · by_cases hyz2 : y = z
            · have hxz : x < z := by omega
              simp [hxz]
            · simp [hyz, hyz2] at hbc
        · by_cases hxy2 : x = y
          · subst hxy2
            simp [hxy] at hab
            by_cases hyz : x < z
            · simp [hyz]
            · by_cases hyz2 : x = z
              · simp [hyz, hyz2] at hbc ⊢
                exact ih ys zs hab hbc
              · simp [hyz, hyz2] at hbc
          · simp [hxy, hxy2] at hab

theorem lexLe_total : ∀ (a b : List Nat), (lexLe a b || lexLe b a) = true := by
  intro a
  induction a with
  | nil => intro b; simp [lexLe]
  | cons x xs ih =>
    intro b
    cases b with
    | nil => simp [lexLe]
    | cons y ys =>
      simp only [lexLe]
      by_cases h1 : x < y
      · simp [h1]
      · by_cases h2 : x = y
        · subst h2
          simp [h1]
          simpa using ih ys
        · have h3 : y < x := by omega
          have h4 : ¬ y = x := by omega
          simp [h1, h2, h3, h4]

/-- C4 counterexample: the row `negVdpsRow` (valid except for a negative
`Total VDPs (lifetime)` cell) is accepted by ingestion, so the store holds a
record whose `total_vdps` is `-5` — the numeric field `totalViews` is not
validated for non-negativity. -/
theorem C4_counterexample :
    (load_rows [negVdpsRow]).map (fun kv => kv.2.total_vdps) = [-5]
      ∧ (-5 : Int) < 0 := by
  constructor
  · decide
  · decide

/-- C4 amended: every record in the store after ingestion satisfies the
invariants that the pydantic validators actually check — identifier exactly 17
characters, model year in [1980, 2030], and non-negative `currentPrice`,
`daysOnLot` and `mileage` (`totalViews` and `salesOpportunities` have no
validator and may be negative, per `C4_counterexample`); and a row that fails to
parse is dropped while the remaining rows load unchanged. -/
theorem C4_store_invariants (rows : List Row) :
    (∀ kv ∈ load_rows rows, ValidRecord kv.2)
      ∧ ∀ row, parse_row row = none → ∀ pre post,
          load_rows (pre ++ row :: post) = load_rows (pre ++ post) :=
  ⟨load_rows_valid rows, fun row h pre post => load_rows_skip row h pre post⟩

/-- C4 witness: the theorem applied to the concrete one-row load of `negVdpsRow`
(whose stored record it proves valid) and to dropping the unparsable
`emptyVinRow`. -/
theorem C4_store_invariants_witness :
    ValidRecord negVdpsPair.2
      ∧ load_rows ([] ++ emptyVinRow :: [negVdpsRow]) = load_rows ([] ++ [negVdpsRow]) :=
  ⟨(C4_store_invariants [negVdpsRow]).1 negVdpsPair (by decide),
   (C4_store_invariants []).2 emptyVinRow (by decide) [] [negVdpsRow]⟩

/-- C8: `get_database_stats` returns the record count, the sorted duplicate-free
list of manufacturers containing exactly the stored makes, a `(min, max)`
model-year range whose bounds are attained and bracket every stored year, and
`(min, max, avg)` prices computed only over records with non-zero price (the
empty-average division is guarded); on an empty store it returns count 0, an
empty manufacturer list and null ranges.  The function is total — it never
fails for any store contents. -/
theorem C8_stats_contract (vehicles : List VehicleData)
    (hnn : ∀ v ∈ vehicles, 0 ≤ v.current_price) :
    get_database_stats [] =
        { total_vehicles := 0, makes := [], year_range := none, price_range := none }
      ∧ (get_database_stats vehicles).total_vehicles = vehicles.length
      ∧ List.Pairwise (fun a b => lexLe a b = true) (get_database_stats vehicles).makes
      ∧ (get_database_stats vehicles).makes.Nodup
      ∧ (∀ m, m ∈ (get_database_stats vehicles).makes ↔ m ∈ vehicles.map VehicleData.make)
      ∧ ((get_database_stats vehicles).year_range = none ↔ vehicles = [])
      ∧ (∀ a b, (get_database_stats vehicles).year_range = some (some a, some b) →
          a ∈ vehicles.map VehicleData.year ∧ b ∈ vehicles.map VehicleData.year
            ∧ ∀ y ∈ vehicles.map VehicleData.year, a ≤ y ∧ y ≤ b)
      ∧ ((get_database_stats vehicles).price_range = none ↔ vehicles = [])
      ∧ (∀ pr, (get_database_stats vehicles).price_range = some pr →
          pr.min = pyMin ((vehicles.filter (fun v => v.current_price ≠ 0)).map
              VehicleData.current_price)
            ∧ pr.max = pyMax ((vehicles.filter (fun v => v.current_price ≠ 0)).map
                VehicleData.current_price)
            ∧ pr.avg = (if ((vehicles.filter (fun v => v.current_price ≠ 0)).map
                  VehicleData.current_price) = [] then none
                else some ((((vehicles.filter (fun v => v.current_price ≠ 0)).map
                    VehicleData.current_price).sum)
                  / ((((vehicles.filter (fun v => v.current_price ≠ 0)).map
                    VehicleData.current_price).length : Nat) : Rat)))) := by
  have hfilter : vehicles.filter (fun v => decide (0 < v.current_price))
      = vehicles.filter (fun v => decide (v.current_price ≠ 0)) := by
    apply List.filter_congr
    intro v hv
    have h0 : 0 ≤ v.current_price := hnn v hv
    simp only [decide_eq_decide]
    constructor
    · intro h
      exact ne_of_gt h
    · intro h
      exact lt_of_le_of_ne h0 (Ne.symm h)
  by_cases hv : vehicles = []
  · subst hv
    refine ⟨rfl, rfl, ?_, ?_, ?_, ?_, ?_, ?_, ?_⟩
    · simp [get_database_stats]
    · simp [get_database_stats]
    · simp [get_database_stats]
    · simp [get_database_stats]
    · intro a b h
      simp [get_database_stats] at h
    · simp [get_database_stats]
    · intro pr h
      simp [get_database_stats] at h
  · have hstats : get_database_stats vehicles =
        { total_vehicles := vehicles.length,
          makes := (vehicles.map VehicleData.make).dedup.mergeSort lexLe,
          year_range := some (pyMin (vehicles.map VehicleData.year),
            pyMax (vehicles.map VehicleData.year)),
          price_range := some
            { min := pyMin ((vehicles.filter (fun v => decide (v.current_price ≠ 0))).map
                VehicleData.current_price),
              max := pyMax ((vehicles.filter (fun v => decide (v.current_price ≠ 0))).map
                VehicleData.current_price),
              avg := if ((vehicles.filter (fun v => decide (v.current_price ≠ 0))).map
                    VehicleData.current_price) = [] then none
                else some ((((vehicles.filter (fun v => decide (v.current_price ≠ 0))).map
                    VehicleData.current_price).sum)
                  / ((((vehicles.filter (fun v => decide (v.current_price ≠ 0))).map
                    VehicleData.current_price).length : Nat) : Rat)) } } := by
      unfold get_database_stats
      rw [if_neg hv, hfilter]
    have hsort := List.sorted_mergeSort lexLe_trans lexLe_total
      ((vehicles.map VehicleData.make).dedup)
    have hperm := List.mergeSort_perm ((vehicles.map VehicleData.make).dedup) lexLe
    rw [hstats]
    refine ⟨rfl, rfl, hsort, hperm.nodup_iff.mpr (List.nodup_dedup _), ?_, ?_, ?_, ?_, ?_⟩
    · intro m
      rw [hperm.mem_iff, List.mem_dedup]
    · exact ⟨fun h => by simp at h, fun h => absurd h hv⟩
    · intro a b h
      injection h with h
      have h1 : pyMin (vehicles.map VehicleData.year) = some a := congrArg Prod.fst h
      have h2 : pyMax (vehicles.map VehicleData.year) = some b := congrArg Prod.snd h
      obtain ⟨hmem1, hle1⟩ := pyMin_spec h1
      obtain ⟨hmem2, hle2⟩ := pyMax_spec h2
      exact ⟨hmem1, hmem2, fun y hy => ⟨hle1 y hy, hle2 y hy⟩⟩
    · exact ⟨fun h => by simp at h, fun h => absurd h hv⟩
    · intro pr h
      injection h with h
      rw [← h]
      exact ⟨rfl, rfl, rfl⟩

/-- C8 witness: the theorem applied to the concrete one-record store holding
`hondaAccordScenario`. -/
theorem C8_stats_contract_witness :
    (get_database_stats [hondaAccordScenario]).total_vehicles
      = [hondaAccordScenario].length :=
  (C8_stats_contract [hondaAccordScenario] (by decide)).2.1

/-- C10: for every record with positive price and `price_to_market_percent`
exactly 95, the algorithmic summary's price description is "competitively
priced" (its below-market phrase requires the percentage to be strictly below
95), and the generated summary embeds that phrase — while the scoring rule
assigns the below-market impact `-2` at exactly 95, so at this boundary the
summary text and the score's classification disagree. -/
theorem C10_price_boundary_disagreement (vehicle : VehicleData)
    (risk_factors : RiskFactors)
    (hprice : 0 < vehicle.current_price)
    (hptm : vehicle.price_to_market_percent = 95) :
    summary_price_desc vehicle = strCodes "competitively priced"
      ∧ (∃ pre post, generate_summary vehicle risk_factors
          = pre ++ (strCodes "competitively priced" ++ post))
      ∧ calculate_price_to_market_impact vehicle.price_to_market_percent = -2
      ∧ strCodes "competitively priced" ≠ strCodes "priced below market value" := by
  have hdesc : summary_price_desc vehicle = strCodes "competitively priced" := by
    unfold summary_price_desc
    rw [if_pos hprice, hptm]
    rw [if_neg (by norm_num), if_neg (by norm_num)]
  refine ⟨hdesc, ?_, ?_, by decide⟩
  · refine ⟨strCodes "This " ++ intCodes vehicle.year ++ strCodes " "
      ++ pyTitle vehicle.make ++ strCodes " " ++ pyTitle vehicle.model
      ++ strCodes " is ",
      strCodes " and shows "
        ++ (if vehicle.total_vdps > 200 then strCodes "strong online engagement"
            else if vehicle.total_vdps ≥ 50 then strCodes "moderate online interest"
            else strCodes "limited online visibility")
        ++ (strCodes ", "
        ++ ((if vehicle.days_on_lot < 15 then strCodes "recently listed"
            else if vehicle.days_on_lot ≤ 45 then strCodes "with normal inventory time"
            else strCodes "with extended time on lot")
        ++ (strCodes ", indicating a "
        ++ ((if risk_factors.final_score ≤ 3 then strCodes "low risk investment"
            else if risk_factors.final_score ≤ 6 then strCodes "moderate market position"
            else strCodes "requiring attention")
        ++ strCodes ".")))), ?_⟩
    simp only [generate_summary, hdesc, List.append_assoc]
  · rw [hptm]
    norm_num [calculate_price_to_market_impact]

/-- C10 witness: the theorem applied to the concrete boundary record
`hondaAccordScenario` (price 25000 > 0, price-to-market exactly 95). -/
theorem C10_price_boundary_disagreement_witness :
    summary_price_desc hondaAccordScenario = strCodes "competitively priced"
      ∧ calculate_price_to_market_impact hondaAccordScenario.price_to_market_percent
          = -2 :=
  ⟨(C10_price_boundary_disagreement hondaAccordScenario
      (calculate_risk_factors 2025 hondaAccordScenario) (by decide) rfl).1,
   (C10_price_boundary_disagreement hondaAccordScenario
      (calculate_risk_factors 2025 hondaAccordScenario) (by decide) rfl).2.2.1⟩
